import Mathlib

/-
Verification development for a small command-line weather client
(`src/models.py`, `src/api_service.py`, `src/weather_client.py`).

The Python source is shallowly embedded: the HTTP layer is modelled by an
explicit request-outcome value (a parsed response with a status code, or a
network-level failure), numbers are embedded as `Rat`/`Int`, datetimes as
unix seconds (UTC), and the console output of the display layer as lists of
printed lines.
-/

set_option autoImplicit false
set_option linter.unusedVariables false

deriving instance DecidableEq for Except

attribute [local semireducible] Rat.ofScientific Rat.add Rat.sub Rat.mul
  Rat.inv

namespace WeatherApp

/-- Embedding of `models.WeatherData` (src/models.py): a dataclass with
fields `city_name`, `temperature` (Celsius), `condition`, `humidity`,
`wind_speed`, and an optional `timestamp` defaulting to `None`.
The timestamp is represented by its unix seconds in UTC. -/
structure WeatherData where
  city_name : String
  temperature : Rat
  condition : String
  humidity : Int
  wind_speed : Rat
  timestamp : Option Int := none
  deriving Repr, DecidableEq

/-- Embedding of the `WeatherAPIError` exception (src/api_service.py):
a domain error carrying a human-readable message. -/
structure WeatherAPIError where
  message : String
  deriving Repr, DecidableEq

/-- Embedding of the `WeatherAPIService` object state: the two attributes
assigned in `WeatherAPIService.__init__`. -/
structure WeatherAPIService where
  api_key : String
  base_url : String
  deriving Repr, DecidableEq

/-- Embedding of `WeatherAPIService.__init__`: stores the api key and the
fixed base URL. -/
def WeatherAPIService.init (api_key : String) : WeatherAPIService :=
  { api_key := api_key
    base_url := "http://api.openweathermap.org/data/2.5" }

/-- Model of Python's round-half-to-even on an exact rational, yielding the
nearest integer (ties go to the even integer). -/
def pyRoundInt (q : Rat) : Int :=
  let n : Int := q.floor
  let r : Rat := q - (n : Rat)
  if r < 1/2 then n
  else if 1/2 < r then n + 1
  else if n % 2 = 0 then n else n + 1

/-- Model of Python's `round(x, 1)` (one fractional digit, ties to even). -/
def pyRound1 (q : Rat) : Rat :=
  (pyRoundInt (q * 10) : Rat) / 10

/-- Embedding of `WeatherAPIService._kelvin_to_celsius`:
`return kelvin - 273.15`. -/
def kelvin_to_celsius (kelvin : Rat) : Rat :=
  kelvin - 273.15

/-- The `main` sub-object of a parsed weather JSON payload:
`main.temp` (Kelvin) and `main.humidity`. -/
structure MainFields where
  temp : Rat
  humidity : Int
  deriving Repr, DecidableEq

/-- The `weather[0]` sub-object: the condition `description`. -/
structure WeatherDesc where
  description : String
  deriving Repr, DecidableEq

/-- The `wind` sub-object: the wind `speed`. -/
structure WindFields where
  speed : Rat
  deriving Repr, DecidableEq

/-- Parsed JSON body of a `/weather` (current weather) response: the fields
read by `fetch_current_weather` (`name`, `main`, `weather[0]`, `wind`,
`dt`). -/
structure CurrentBody where
  name : String
  main : MainFields
  weather0 : WeatherDesc
  wind : WindFields
  dt : Int
  deriving Repr, DecidableEq

/-- One entry of the `list` field of a `/forecast` response: the fields
read by `fetch_forecast` per item. -/
structure ForecastItem where
  main : MainFields
  weather0 : WeatherDesc
  wind : WindFields
  dt : Int
  deriving Repr, DecidableEq

/-- The nested `city` object of a `/forecast` response. -/
structure CityInfo where
  name : String
  deriving Repr, DecidableEq

/-- Parsed JSON body of a `/forecast` response: the nested `city` object
and the `list` of forecast entries. -/
structure ForecastBody where
  city : CityInfo
  list : List ForecastItem
  deriving Repr, DecidableEq

/-- A received HTTP response: its status code and its parsed JSON body. -/
structure HttpResponse (β : Type) where
  status_code : Nat
  body : β
  deriving Repr, DecidableEq

/-- Outcome of `requests.get`: either a response was received (whose status
may still be an error status), or the request failed at the network level
(`requests.exceptions.RequestException`: timeout, DNS, connection refused)
with a message. -/
inductive RequestOutcome (β : Type) where
  | got (r : HttpResponse β)
  | requestFailure (msg : String)
  deriving Repr, DecidableEq

/-- Model of `response.raise_for_status()`: it raises an
`requests.exceptions.HTTPError` exactly for 4xx and 5xx status codes. -/
def isErrorStatus (status : Nat) : Bool :=
  400 ≤ status && status < 600

/-- Model of `str(e)` for the `HTTPError` raised by `raise_for_status`,
as a function of the response status code. -/
def httpErrorText (status : Nat) : String :=
  toString status ++ " Error"

/-- The request URL built by `fetch_current_weather`. -/
def currentWeatherUrl (s : WeatherAPIService) (city : String) : String :=
  s.base_url ++ "/weather?q=" ++ city ++ "&appid=" ++ s.api_key

/-- The request URL built by `fetch_forecast`. -/
def forecastUrl (s : WeatherAPIService) (city : String) : String :=
  s.base_url ++ "/forecast?q=" ++ city ++ "&appid=" ++ s.api_key

/-- Embedding of `WeatherAPIService.fetch_current_weather`, parameterised
by the outcome of the single HTTP GET. On a received response,
`raise_for_status` raises for 4xx/5xx; the handler returns `None` when the
captured response's status is 404 and otherwise raises `WeatherAPIError`;
on a 2xx/3xx response the JSON fields are mapped into a `WeatherData`
with the temperature converted to Celsius and rounded to one decimal. -/
def fetch_current_weather (s : WeatherAPIService) (city : String)
    (outcome : RequestOutcome CurrentBody) :
    Except WeatherAPIError (Option WeatherData) :=
  match outcome with
  | .got r =>
    if isErrorStatus r.status_code then
      if r.status_code = 404 then
        .ok none
      else
        .error { message := "HTTP error occurred: " ++ httpErrorText r.status_code }
    else
      let data := r.body
      .ok (some
        { city_name := data.name
          temperature := pyRound1 (kelvin_to_celsius data.main.temp)
          condition := data.weather0.description
          humidity := data.main.humidity
          wind_speed := data.wind.speed
          timestamp := some data.dt })
  | .requestFailure msg =>
      .error { message := "Error fetching weather data: " ++ msg }

/-- Embedding of `WeatherAPIService.fetch_forecast`, parameterised by the
outcome of the single HTTP GET. The loop `for item in data["list"]`
appending one `WeatherData` per item is embedded as a `List.map`; the city
name of every record is the nested `data["city"]["name"]`. A 404 yields
the empty list; any other 4xx/5xx or a network failure raises
`WeatherAPIError`. -/
def fetch_forecast (s : WeatherAPIService) (city : String)
    (outcome : RequestOutcome ForecastBody) :
    Except WeatherAPIError (List WeatherData) :=
  match outcome with
  | .got r =>
    if isErrorStatus r.status_code then
      if r.status_code = 404 then
        .ok []
      else
        .error { message := "HTTP error occurred: " ++ httpErrorText r.status_code }
    else
      .ok (r.body.list.map (fun item =>
        { city_name := r.body.city.name
          temperature := pyRound1 (kelvin_to_celsius item.main.temp)
          condition := item.weather0.description
          humidity := item.main.humidity
          wind_speed := item.wind.speed
          timestamp := some item.dt }))
  | .requestFailure msg =>
      .error { message := "Error fetching forecast data: " ++ msg }

/-- Model of the f-string rendering of the float fields (`temperature`,
`wind_speed`): an integral value prints with a trailing `.0` (Python float
repr), a one-decimal value prints its single fractional digit, anything
else falls back to the rational's own representation. -/
def floatStr (q : Rat) : String :=
  if q.den = 1 then toString q.num ++ ".0"
  else
    let t := q * 10
    if t.den = 1 then
      (if t.num < 0 then "-" else "")
        ++ toString (t.num.natAbs / 10) ++ "." ++ toString (t.num.natAbs % 10)
    else toString q

/-- Left-pads a string with zeros to the given width. -/
def zpad (w : Nat) (s : String) : String :=
  if w ≤ s.length then s
  else String.mk (List.replicate (w - s.length) '0') ++ s

/-- Two-digit zero-padded decimal, as produced by `%m`, `%d`, `%H`, `%M`,
`%S`. -/
def pad2 (n : Nat) : String := zpad 2 (toString n)

/-- Civil date (year, month, day) of a day count relative to 1970-01-01,
in the proleptic Gregorian calendar. -/
def civilFromDays (z0 : Int) : Int × Nat × Nat :=
  let z := z0 + 719468
  let era := z.fdiv 146097
  let doe := (z - era * 146097).toNat
  let yoe := (doe - doe / 1460 + doe / 36524 - doe / 146096) / 365
  let doy := doe - (365 * yoe + yoe / 4 - yoe / 100)
  let mp := (5 * doy + 2) / 153
  let d := doy - (153 * mp + 2) / 5 + 1
  let m := if mp < 10 then mp + 3 else mp - 9
  let y := (yoe : Int) + era * 400 + (if m ≤ 2 then 1 else 0)
  (y, m, d)

/-- Model of `datetime.fromtimestamp(ts, timezone.utc).strftime('%Y-%m-%d
%H:%M:%S')`: the unix timestamp rendered as a UTC civil date and time of
day. -/
def strftimeUTC (ts : Int) : String :=
  let days := ts.fdiv 86400
  let sod := (ts - days * 86400).toNat
  let c := civilFromDays days
  let yStr := if c.1 < 0 then "-" ++ zpad 4 (toString c.1.natAbs)
              else zpad 4 (toString c.1.natAbs)
  yStr ++ "-" ++ pad2 c.2.1 ++ "-" ++ pad2 c.2.2
    ++ " " ++ pad2 (sod / 3600) ++ ":" ++ pad2 (sod % 3600 / 60)
    ++ ":" ++ pad2 (sod % 60)

/-- Embedding of `WeatherClient.display_weather`: the lines printed for one
record, in order. The final `Time:` line is printed exactly when
`weather.timestamp` is truthy, i.e. not `None`. -/
def display_weather_lines (w : WeatherData) : List String :=
  ["\nWeather for " ++ w.city_name ++ ":",
   "Temperature: " ++ floatStr w.temperature ++ "°C",
   "Condition: " ++ w.condition,
   "Humidity: " ++ toString w.humidity ++ "%",
   "Wind Speed: " ++ floatStr w.wind_speed ++ " m/s"]
  ++ (match w.timestamp with
      | some ts => ["Time: " ++ strftimeUTC ts ++ " UTC"]
      | none => [])

/-- The console text of a sequence of printed lines (`print` appends a
newline after each). -/
def printedText : List String → String
  | [] => ""
  | l :: ls => l ++ "\n" ++ printedText ls

/-- The full console output of `display_weather` for one record. -/
def display_weather (w : WeatherData) : String :=
  printedText (display_weather_lines w)

/-- The separator printed by `display_forecast`: `"-" * 40`. -/
def dashRule : String := String.mk (List.replicate 40 '-')

/-- Embedding of `WeatherClient.display_forecast`: a header naming
`forecast[0].city_name`, then for each record the dash rule followed by
that record's `display_weather` block. Reading `forecast[0]` of an empty
list raises `IndexError`, embedded as `none`. -/
def display_forecast_lines (forecast : List WeatherData) :
    Option (List String) :=
  match forecast with
  | [] => none
  | first :: _ =>
    some (("\n5-Day Forecast for " ++ first.city_name ++ ":")
      :: forecast.flatMap (fun w => dashRule :: display_weather_lines w))

/-- Whether the character list `p` is an initial segment of `s`. -/
def listStarts : List Char → List Char → Bool
  | _, [] => true
  | [], _ :: _ => false
  | a :: s, b :: p => a = b && listStarts s p

/-- Whether the character list `p` occurs contiguously inside `s`. -/
def listHasSub : List Char → List Char → Bool
  | [], p => p.isEmpty
  | a :: s, p => listStarts (a :: s) p || listHasSub s p

/-- Whether the string `p` is an initial segment of `s`. -/
def strStarts (s p : String) : Bool := listStarts s.data p.data

/-- Whether the string `p` occurs as a contiguous substring of `s`. -/
def strHasSub (s p : String) : Bool := listHasSub s.data p.data

/-- Model of Python's `str.isspace` test on the ASCII whitespace
characters recognised by `str.strip()`. -/
def isPySpace (c : Char) : Bool :=
  c = ' ' || c = '\t' || c = '\n' || c = '\x0d'
    || c = '\x0b' || c = '\x0c'

/-- Model of Python's `str.strip()`: removes leading and trailing
whitespace. -/
def pyStrip (s : String) : String :=
  String.mk (((s.data.dropWhile isPySpace).reverse.dropWhile isPySpace).reverse)

/-- Model of Python's `str.lower()` on ASCII text. -/
def pyLower (s : String) : String :=
  String.mk (s.data.map Char.toLower)

/-- Splitting a character list at every comma, keeping empty pieces
(the accumulator holds the current piece reversed). -/
def splitCommaAux : List Char → List Char → List (List Char)
  | [], acc => [acc.reverse]
  | c :: cs, acc =>
    if c = ',' then acc.reverse :: splitCommaAux cs []
    else splitCommaAux cs (c :: acc)

/-- Model of Python's `str.split(",")`: the pieces between commas, empty
pieces included (`"".split(",") == [""]`). -/
def pySplitComma (s : String) : List String :=
  (splitCommaAux s.data []).map String.mk

/-- Observable console events of the interactive loop
`WeatherClient.get_weather_for_cities`, one per branch the loop can
print from. -/
inductive Event where
  | fetching (city : String)
  | currentShown (w : WeatherData)
  | cityNotFound (city : String)
  | forecastShown (ws : List WeatherData)
  | noForecast (city : String)
  | apiError (msg : String)
  | exiting
  deriving Repr, DecidableEq

/-- A fetch oracle: the result of `fetch_current_weather` for each city
during one run (the already-handled `Except` value). -/
def CurrentOracle := String → Except WeatherAPIError (Option WeatherData)

/-- A fetch oracle: the result of `fetch_forecast` for each city during
one run. -/
def ForecastOracle := String → Except WeatherAPIError (List WeatherData)

/-- The loop body for one city: print the fetching banner; fetch the
current weather (a raised `WeatherAPIError` propagates, returned as
`some e`); display it or report not found; fetch the forecast likewise;
display it or report no forecast. `if current_weather:` and
`if forecast:` are Python truthiness: `None` and the empty list are
falsy. -/
def processCity (fc : CurrentOracle) (ff : ForecastOracle) (city : String) :
    List Event × Option WeatherAPIError :=
  match fc city with
  | .error e => ([.fetching city], some e)
  | .ok cur =>
    let curEvents := match cur with
      | some w => [Event.currentShown w]
      | none => [Event.cityNotFound city]
    match ff city with
    | .error e => ([Event.fetching city] ++ curEvents, some e)
    | .ok f =>
      let fEvents := if f.isEmpty then [Event.noForecast city]
                     else [Event.forecastShown f]
      ([Event.fetching city] ++ curEvents ++ fEvents, none)

/-- The `for city in cities` loop: empty names are skipped via `continue`;
a `WeatherAPIError` raised while processing one city aborts the rest of
the line's batch (the `try` wraps the whole `for` loop) and is reported
by the `except WeatherAPIError` handler, after which the `while` loop
continues. -/
def processLine (fc : CurrentOracle) (ff : ForecastOracle) :
    List String → List Event
  | [] => []
  | c :: cs =>
    if c = "" then processLine fc ff cs
    else
      match processCity fc ff c with
      | (evs, none) => evs ++ processLine fc ff cs
      | (evs, some e) => evs ++ [Event.apiError e.message]

/-- The city list parsed from one input line:
`[city.strip() for city in user_input.split(",")]`. -/
def splitCities (user_input : String) : List String :=
  (pySplitComma user_input).map pyStrip

/-- Embedding of the `while True` loop of
`WeatherClient.get_weather_for_cities` over a finite list of input lines
(the model's boundary: behaviour up to exhaustion of the given input).
Each line is stripped; a line equal to `"quit"` case-insensitively ends
the loop; otherwise its comma-separated cities are processed and the loop
repeats. -/
def get_weather_for_cities (fc : CurrentOracle) (ff : ForecastOracle) :
    List String → List Event
  | [] => []
  | line :: rest =>
    let user_input := pyStrip line
    if pyLower user_input = "quit" then [Event.exiting]
    else processLine fc ff (splitCities user_input)
         ++ get_weather_for_cities fc ff rest

/-- The events one non-empty city contributes to a line, with a raised
`WeatherAPIError` already reported by the loop's handler. -/
def processCityClose (fc : CurrentOracle) (ff : ForecastOracle)
    (city : String) : List Event :=
  match processCity fc ff city with
  | (evs, none) => evs
  | (evs, some e) => evs ++ [Event.apiError e.message]

/-- State-passing form of `fetch_current_weather`: the method body reads
`self.base_url` and `self.api_key` but assigns no attribute of `self`
(attributes are assigned only in `__init__`), so the post-state of the
service object is the pre-state. -/
def fetch_current_weather_st (s : WeatherAPIService) (city : String)
    (outcome : RequestOutcome CurrentBody) :
    WeatherAPIService × Except WeatherAPIError (Option WeatherData) :=
  (s, fetch_current_weather s city outcome)

/-- State-passing form of `fetch_forecast`: likewise assigns no attribute
of `self`. -/
def fetch_forecast_st (s : WeatherAPIService) (city : String)
    (outcome : RequestOutcome ForecastBody) :
    WeatherAPIService × Except WeatherAPIError (List WeatherData) :=
  (s, fetch_forecast s city outcome)

/-- State-passing form of `display_weather`: the method only reads the
record's fields (no field of `weather` is assigned), so the record after
the call is the record before it. -/
def display_weather_st (w : WeatherData) : WeatherData × String :=
  (w, display_weather w)

/-- State-passing form of `display_forecast`: the records are only read,
never assigned to. -/
def display_forecast_st (forecast : List WeatherData) :
    List WeatherData × Option (List String) :=
  (forecast, display_forecast_lines forecast)

theorem listStarts_refl_append (p x : List Char) :
    listStarts (p ++ x) p = true := by
  induction p with
  | nil => cases x <;> rfl
  | cons a t ih => simp [listStarts, ih]

theorem listHasSub_of_listStarts (s p : List Char)
    (h : listStarts s p = true) : listHasSub s p = true := by
  cases s with
  | nil =>
    cases p with
    | nil => rfl
    | cons b q => simp [listStarts] at h
  | cons a t => simp [listHasSub, h]

theorem listHasSub_append_left (x : List Char) {s p : List Char}
    (h : listHasSub s p = true) : listHasSub (x ++ s) p = true := by
  induction x with
  | nil => simpa using h
  | cons a t ih => simp [listHasSub, ih]

theorem listStarts_of_append :
    ∀ (p s x : List Char), p.length ≤ s.length →
      listStarts (s ++ x) p = true → listStarts s p = true
  | [], s, x, _, _ => by
    cases s with
    | nil => rfl
    | cons a t => rfl
  | b :: q, [], x, hlen, _ => by simp at hlen
  | b :: q, a :: t, x, hlen, h => by
    simp only [List.cons_append, listStarts, Bool.and_eq_true,
      decide_eq_true_eq] at h ⊢
    exact ⟨h.1, listStarts_of_append q t x (by simpa using hlen) h.2⟩

theorem strStarts_of_decomp (s p : String) (rest : List Char)
    (hs : s.data = p.data ++ rest) : strStarts s p = true := by
  unfold strStarts
  rw [hs]
  exact listStarts_refl_append p.data rest

theorem strStarts_false_of_decomp (s lit rest p : String)
    (hs : s.data = lit.data ++ rest.data)
    (hlen : p.data.length ≤ lit.data.length)
    (hfalse : listStarts lit.data p.data = false) :
    strStarts s p = false := by
  unfold strStarts
  rw [hs]
  cases hcase : listStarts (lit.data ++ rest.data) p.data with
  | false => rfl
  | true =>
    have := listStarts_of_append p.data lit.data rest.data hlen hcase
    rw [this] at hfalse
    exact absurd hfalse (by simp)

theorem strHasSub_of_decomp (s pre mid suf : String)
    (hs : s.data = pre.data ++ (mid.data ++ suf.data)) :
    strHasSub s mid = true := by
  unfold strHasSub
  rw [hs]
  exact listHasSub_append_left pre.data
    (listHasSub_of_listStarts _ _ (listStarts_refl_append mid.data suf.data))

theorem strHasSub_printedText (lines : List String) (l : String)
    (h : l ∈ lines) : strHasSub (printedText lines) l = true := by
  induction lines with
  | nil => simp at h
  | cons a t ih =>
    rcases List.mem_cons.mp h with rfl | hmem
    · exact strHasSub_of_decomp _ "" l ("\n" ++ printedText t)
        (by simp [printedText, String.data_append, List.append_assoc])
    · unfold strHasSub at ih ⊢
      have hdata : (printedText (a :: t)).data
          = (a ++ "\n").data ++ (printedText t).data := by
        simp [printedText, String.data_append, List.append_assoc]
      rw [hdata]
      exact listHasSub_append_left _ (ih hmem)

theorem forall₂_map_self {α β : Type} (f : α → β) (R : β → α → Prop)
    (h : ∀ a, R (f a) a) (xs : List α) :
    List.Forall₂ R (xs.map f) xs := by
  induction xs with
  | nil => exact List.Forall₂.nil
  | cons a t ih => exact List.Forall₂.cons (h a) ih

/-- C1: for every Kelvin input `k`, the temperature stored in a
`WeatherData` produced by `fetch_current_weather` or `fetch_forecast`
equals `round(k - 273.15, 1)`; in particular 283.15 K yields exactly
10.0 °C. -/
theorem fetch_temperature_is_rounded_celsius :
    (∀ (s : WeatherAPIService) (city : String) (r : HttpResponse CurrentBody)
       (w : WeatherData),
       fetch_current_weather s city (.got r) = .ok (some w) →
       w.temperature = pyRound1 (r.body.main.temp - 273.15))
  ∧ (∀ (s : WeatherAPIService) (city : String) (r : HttpResponse ForecastBody)
       (l : List WeatherData) (w : WeatherData),
       fetch_forecast s city (.got r) = .ok l → w ∈ l →
       ∃ item ∈ r.body.list,
         w.temperature = pyRound1 (item.main.temp - 273.15))
  ∧ pyRound1 ((283.15 : Rat) - 273.15) = 10 := by
  refine ⟨?_, ?_, by decide⟩
  · intro s city r w h
    simp only [fetch_current_weather] at h
    split at h
    · split at h <;> simp at h
    · simp only [Except.ok.injEq, Option.some.injEq] at h
      rw [← h]
      rfl
  · intro s city r l w h hmem
    simp only [fetch_forecast] at h
    split at h
    · split at h
      · simp only [Except.ok.injEq] at h
        rw [← h] at hmem
        simp at hmem
      · simp at h
    · simp only [Except.ok.injEq] at h
      rw [← h] at hmem
      rcases List.mem_map.mp hmem with ⟨item, hitem, hw⟩
      exact ⟨item, hitem, by rw [← hw]; rfl⟩

/-- Witness for C1 at the spec's end-to-end example: 283.15 K becomes
10.0 °C. -/
theorem fetch_temperature_is_rounded_celsius_witness :
    fetch_current_weather (WeatherAPIService.init "key") "London"
        (.got ⟨200, ⟨"London", ⟨283.15, 80⟩, ⟨"clear sky"⟩, ⟨5⟩, 1635778800⟩⟩)
      = .ok (some ⟨"London", 10, "clear sky", 80, 5, some 1635778800⟩)
    ∧ (⟨"London", 10, "clear sky", 80, 5, some 1635778800⟩ :
        WeatherData).temperature = pyRound1 ((283.15 : Rat) - 273.15) :=
  ⟨by decide,
   fetch_temperature_is_rounded_celsius.1
     (WeatherAPIService.init "key") "London"
     ⟨200, ⟨"London", ⟨283.15, 80⟩, ⟨"clear sky"⟩, ⟨5⟩, 1635778800⟩⟩
     ⟨"London", 10, "clear sky", 80, 5, some 1635778800⟩ (by decide)⟩

/-- C2: a 404 response to the current-weather request makes
`fetch_current_weather` return `None` without raising. -/
theorem fetch_current_weather_404_returns_none
    (s : WeatherAPIService) (city : String) (body : CurrentBody) :
    fetch_current_weather s city (.got ⟨404, body⟩) = .ok none := rfl

/-- C3: any 4xx/5xx status other than 404, and any network-level failure,
makes `fetch_current_weather` raise a `WeatherAPIError` carrying a
message (so no value is returned). -/
theorem fetch_current_weather_error_raises
    (s : WeatherAPIService) (city : String) (body : CurrentBody) :
    (∀ status : Nat, isErrorStatus status = true → status ≠ 404 →
       fetch_current_weather s city (.got ⟨status, body⟩)
         = .error ⟨"HTTP error occurred: " ++ httpErrorText status⟩)
  ∧ ∀ msg : String,
       fetch_current_weather s city (.requestFailure msg)
         = .error ⟨"Error fetching weather data: " ++ msg⟩ := by
  constructor
  · intro status h1 h2
    simp [fetch_current_weather, h1, h2]
  · intro msg
    rfl

/-- Witness for C3 at a 500 response and at a timeout. -/
theorem fetch_current_weather_error_raises_witness :
    isErrorStatus 500 = true ∧ (500 : Nat) ≠ 404
  ∧ fetch_current_weather (WeatherAPIService.init "key") "London"
      (.got ⟨500, ⟨"London", ⟨283.15, 80⟩, ⟨"clear sky"⟩, ⟨5⟩, 0⟩⟩)
      = .error ⟨"HTTP error occurred: " ++ httpErrorText 500⟩
  ∧ fetch_current_weather (WeatherAPIService.init "key") "London"
      (.requestFailure "timeout")
      = .error ⟨"Error fetching weather data: " ++ "timeout"⟩ :=
  ⟨by decide, by decide,
   (fetch_current_weather_error_raises (WeatherAPIService.init "key") "London"
       ⟨"London", ⟨283.15, 80⟩, ⟨"clear sky"⟩, ⟨5⟩, 0⟩).1
     500 (by decide) (by decide),
   (fetch_current_weather_error_raises (WeatherAPIService.init "key") "London"
       ⟨"London", ⟨283.15, 80⟩, ⟨"clear sky"⟩, ⟨5⟩, 0⟩).2 "timeout"⟩

/-- C4: `fetch_forecast` returns the empty list on a 404 response, and
raises a `WeatherAPIError` on any other 4xx/5xx status and on any
network-level failure. -/
theorem fetch_forecast_404_and_errors
    (s : WeatherAPIService) (city : String) (body : ForecastBody) :
    fetch_forecast s city (.got ⟨404, body⟩) = .ok []
  ∧ (∀ status : Nat, isErrorStatus status = true → status ≠ 404 →
       fetch_forecast s city (.got ⟨status, body⟩)
         = .error ⟨"HTTP error occurred: " ++ httpErrorText status⟩)
  ∧ ∀ msg : String,
       fetch_forecast s city (.requestFailure msg)
         = .error ⟨"Error fetching forecast data: " ++ msg⟩ := by
  refine ⟨rfl, ?_, fun msg => rfl⟩
  intro status h1 h2
  simp [fetch_forecast, h1, h2]

/-- Witness for C4 at a 404, a 500 and a network failure. -/
theorem fetch_forecast_404_and_errors_witness :
    fetch_forecast (WeatherAPIService.init "key") "Nowhere"
      (.got ⟨404, ⟨⟨"Nowhere"⟩, []⟩⟩) = .ok []
  ∧ isErrorStatus 500 = true ∧ (500 : Nat) ≠ 404
  ∧ fetch_forecast (WeatherAPIService.init "key") "Nowhere"
      (.got ⟨500, ⟨⟨"Nowhere"⟩, []⟩⟩)
      = .error ⟨"HTTP error occurred: " ++ httpErrorText 500⟩ :=
  ⟨(fetch_forecast_404_and_errors (WeatherAPIService.init "key") "Nowhere"
      ⟨⟨"Nowhere"⟩, []⟩).1,
   by decide, by decide,
   (fetch_forecast_404_and_errors (WeatherAPIService.init "key") "Nowhere"
      ⟨⟨"Nowhere"⟩, []⟩).2.1 500 (by decide) (by decide)⟩

/-- C5: on a successful forecast response with N list entries,
`fetch_forecast` returns exactly N records, paired in order with the
entries, and every record's city name is the nested `city.name` field. -/
theorem fetch_forecast_success_maps_entries
    (s : WeatherAPIService) (city : String) (r : HttpResponse ForecastBody)
    (hok : isErrorStatus r.status_code = false) :
    ∃ l, fetch_forecast s city (.got r) = .ok l
      ∧ l.length = r.body.list.length
      ∧ List.Forall₂
          (fun (w : WeatherData) (item : ForecastItem) =>
            w.city_name = r.body.city.name
            ∧ w.condition = item.weather0.description
            ∧ w.humidity = item.main.humidity
            ∧ w.wind_speed = item.wind.speed
            ∧ w.timestamp = some item.dt)
          l r.body.list := by
  refine ⟨r.body.list.map (fun item =>
    { city_name := r.body.city.name
      temperature := pyRound1 (kelvin_to_celsius item.main.temp)
      condition := item.weather0.description
      humidity := item.main.humidity
      wind_speed := item.wind.speed
      timestamp := some item.dt }), ?_, ?_, ?_⟩
  · simp [fetch_forecast, hok]
  · exact List.length_map _ _
  · exact forall₂_map_self _ _ (fun item => ⟨rfl, rfl, rfl, rfl, rfl⟩)
      r.body.list

/-- Witness for C5 at a concrete two-entry forecast response. -/
theorem fetch_forecast_success_maps_entries_witness :
    isErrorStatus 200 = false
  ∧ ∃ l, fetch_forecast (WeatherAPIService.init "key") "London"
        (.got ⟨200, ⟨⟨"London"⟩,
          [⟨⟨283.15, 80⟩, ⟨"clear sky"⟩, ⟨5⟩, 0⟩,
           ⟨⟨273.15, 70⟩, ⟨"light rain"⟩, ⟨3⟩, 10800⟩]⟩⟩)
      = .ok l
      ∧ l.length = 2
      ∧ List.Forall₂
          (fun (w : WeatherData) (item : ForecastItem) =>
            w.city_name = "London"
            ∧ w.condition = item.weather0.description
            ∧ w.humidity = item.main.humidity
            ∧ w.wind_speed = item.wind.speed
            ∧ w.timestamp = some item.dt)
          l [⟨⟨283.15, 80⟩, ⟨"clear sky"⟩, ⟨5⟩, 0⟩,
             ⟨⟨273.15, 70⟩, ⟨"light rain"⟩, ⟨3⟩, 10800⟩] :=
  ⟨by decide,
   fetch_forecast_success_maps_entries (WeatherAPIService.init "key") "London"
     ⟨200, ⟨⟨"London"⟩,
       [⟨⟨283.15, 80⟩, ⟨"clear sky"⟩, ⟨5⟩, 0⟩,
        ⟨⟨273.15, 70⟩, ⟨"light rain"⟩, ⟨3⟩, 10800⟩]⟩⟩ (by decide)⟩

/-- C6: displayed output of `display_weather` contains the city header,
the temperature, condition, humidity and wind speed lines as literal
substrings, and contains a `Time:` line with the UTC-formatted timestamp
exactly when the record's timestamp is present. -/
theorem display_weather_output_contents (w : WeatherData) :
    strHasSub (display_weather w)
      ("\nWeather for " ++ w.city_name ++ ":") = true
  ∧ strHasSub (display_weather w)
      ("Temperature: " ++ floatStr w.temperature ++ "°C") = true
  ∧ strHasSub (display_weather w)
      ("Condition: " ++ w.condition) = true
  ∧ strHasSub (display_weather w)
      ("Humidity: " ++ toString w.humidity ++ "%") = true
  ∧ strHasSub (display_weather w)
      ("Wind Speed: " ++ floatStr w.wind_speed ++ " m/s") = true
  ∧ (∀ ts : Int, w.timestamp = some ts →
      strHasSub (display_weather w)
        ("Time: " ++ strftimeUTC ts ++ " UTC") = true)
  ∧ ((∃ l, l ∈ display_weather_lines w ∧ strStarts l "Time: " = true)
      ↔ w.timestamp ≠ none) := by
  refine ⟨?_, ?_, ?_, ?_, ?_, ?_, ?_, ?_⟩
  · exact strHasSub_printedText _ _ (by simp [display_weather_lines])
  · exact strHasSub_printedText _ _ (by simp [display_weather_lines])
  · exact strHasSub_printedText _ _ (by simp [display_weather_lines])
  · exact strHasSub_printedText _ _ (by simp [display_weather_lines])
  · exact strHasSub_printedText _ _ (by simp [display_weather_lines])
  · intro ts hts
    exact strHasSub_printedText _ _ (by simp [display_weather_lines, hts])
  · rintro ⟨l, hl, hstart⟩ hnone
    simp only [display_weather_lines, hnone, List.append_nil,
      List.mem_cons, List.not_mem_nil, or_false] at hl
    rcases hl with rfl | rfl | rfl | rfl | rfl
    · rw [strStarts_false_of_decomp _ "\nWeather for " (w.city_name ++ ":")
        "Time: " (by simp [String.data_append]) (by decide) (by decide)]
        at hstart
      exact Bool.noConfusion hstart
    · rw [strStarts_false_of_decomp _ "Temperature: "
        (floatStr w.temperature ++ "°C") "Time: "
        (by simp [String.data_append]) (by decide) (by decide)] at hstart
      exact Bool.noConfusion hstart
    · rw [strStarts_false_of_decomp _ "Condition: " w.condition "Time: "
        (by simp [String.data_append]) (by decide) (by decide)] at hstart
      exact Bool.noConfusion hstart
    · rw [strStarts_false_of_decomp _ "Humidity: "
        (toString w.humidity ++ "%") "Time: "
        (by simp [String.data_append]) (by decide) (by decide)] at hstart
      exact Bool.noConfusion hstart
    · rw [strStarts_false_of_decomp _ "Wind Speed: "
        (floatStr w.wind_speed ++ " m/s") "Time: "
        (by simp [String.data_append]) (by decide) (by decide)] at hstart
      exact Bool.noConfusion hstart
  · intro hne
    cases htime : w.timestamp with
    | none => exact absurd htime hne
    | some ts =>
      refine ⟨"Time: " ++ strftimeUTC ts ++ " UTC", ?_, ?_⟩
      · simp [display_weather_lines, htime]
      · exact strStarts_of_decomp _ "Time: "
          ((strftimeUTC ts).data ++ " UTC".data)
          (by simp [String.data_append])

/-- Witness for C6 at the spec's London record. -/
theorem display_weather_output_contents_witness :
    strHasSub
      (display_weather ⟨"London", 10, "clear sky", 80, 5, some 1635778800⟩)
      ("Temperature: " ++ floatStr (10 : Rat) ++ "°C") = true
  ∧ strHasSub
      (display_weather ⟨"London", 10, "clear sky", 80, 5, some 1635778800⟩)
      ("Time: " ++ strftimeUTC 1635778800 ++ " UTC") = true :=
  ⟨(display_weather_output_contents
      ⟨"London", 10, "clear sky", 80, 5, some 1635778800⟩).2.1,
   (display_weather_output_contents
      ⟨"London", 10, "clear sky", 80, 5, some 1635778800⟩).2.2.2.2.2.1
     1635778800 rfl⟩

/-- C7: for a non-empty sequence, `display_forecast` prints a header
naming the first record's city, then each record's block preceded by the
40-character dash rule, in order. -/
theorem display_forecast_structure (w : WeatherData)
    (ws : List WeatherData) :
    display_forecast_lines (w :: ws)
      = some (("\n5-Day Forecast for " ++ w.city_name ++ ":")
          :: (w :: ws).flatMap (fun r => dashRule :: display_weather_lines r))
  ∧ dashRule.length = 40
  ∧ dashRule.data.all (fun c => c = '-') = true :=
  ⟨rfl, by decide, by decide⟩

/-- C8: the input line `"London, , Paris"` processes London and Paris and
skips the empty entry; a city whose fetches return the not-found results
does not stop the rest of the batch; the loop ends exactly on the input
`"quit"` compared case-insensitively. -/
theorem interactive_loop_batch_and_quit
    (fc : CurrentOracle) (ff : ForecastOracle) (rest : List String)
    (hLc : fc "London" = .ok none) (hLf : ff "London" = .ok []) :
    get_weather_for_cities fc ff ("London, , Paris" :: rest)
      = [Event.fetching "London", Event.cityNotFound "London",
         Event.noForecast "London"]
        ++ processCityClose fc ff "Paris"
        ++ get_weather_for_cities fc ff rest
  ∧ (∀ (line : String) (rest' : List String),
      pyLower (pyStrip line) = "quit" →
      get_weather_for_cities fc ff (line :: rest') = [Event.exiting])
  ∧ (∀ (line : String) (rest' : List String),
      pyLower (pyStrip line) ≠ "quit" →
      get_weather_for_cities fc ff (line :: rest')
        = processLine fc ff (splitCities (pyStrip line))
          ++ get_weather_for_cities fc ff rest') := by
  refine ⟨?_, ?_, ?_⟩
  · have hq : ¬ pyLower (pyStrip "London, , Paris") = "quit" := by decide
    have hsplit : splitCities (pyStrip "London, , Paris")
        = ["London", "", "Paris"] := by decide
    rcases hp : processCity fc ff "Paris" with ⟨evs, err⟩
    simp only [get_weather_for_cities]
    rw [if_neg hq, hsplit]
    cases err <;>
      simp [processLine, processCity, processCityClose, hLc, hLf, hp]
  · intro line rest' h
    simp [get_weather_for_cities, h]
  · intro line rest' h
    simp [get_weather_for_cities, h]

/-- Witness for C8 with oracles always answering not-found. -/
theorem interactive_loop_batch_and_quit_witness :
    (fun _ : String =>
      (Except.ok none : Except WeatherAPIError (Option WeatherData)))
      "London" = Except.ok none
  ∧ get_weather_for_cities
      (fun _ => Except.ok none) (fun _ => Except.ok []) ["London, , Paris"]
      = [Event.fetching "London", Event.cityNotFound "London",
         Event.noForecast "London", Event.fetching "Paris",
         Event.cityNotFound "Paris", Event.noForecast "Paris"]
  ∧ get_weather_for_cities
      (fun _ => Except.ok none) (fun _ => Except.ok []) [" QuIt ", "London"]
      = [Event.exiting] :=
  ⟨rfl,
   ((interactive_loop_batch_and_quit (fun _ => Except.ok none)
       (fun _ => Except.ok []) [] rfl rfl).1).trans (by decide),
   (interactive_loop_batch_and_quit (fun _ => Except.ok none)
       (fun _ => Except.ok []) [] rfl rfl).2.1 " QuIt " ["London"]
     (by decide)⟩

/-- C9: the fetch operations leave the service's `api_key` and `base_url`
unchanged, and the display operations leave the records they are given
unchanged. -/
theorem service_config_and_records_unchanged
    (s : WeatherAPIService) (city : String)
    (o : RequestOutcome CurrentBody) (o2 : RequestOutcome ForecastBody)
    (w : WeatherData) (forecast : List WeatherData) :
    (fetch_current_weather_st s city o).1 = s
  ∧ (fetch_forecast_st s city o2).1 = s
  ∧ (fetch_current_weather_st s city o).1.api_key = s.api_key
  ∧ (fetch_current_weather_st s city o).1.base_url = s.base_url
  ∧ (display_weather_st w).1 = w
  ∧ (display_forecast_st forecast).1 = forecast :=
  ⟨rfl, rfl, rfl, rfl, rfl, rfl⟩

/-- C10: every record produced by `fetch_current_weather` or
`fetch_forecast` carries a present timestamp, although the record type's
`timestamp` field is optional and defaults to `None`. -/
theorem fetched_records_have_timestamp
    (s : WeatherAPIService) (city : String) :
    (∀ (o : RequestOutcome CurrentBody) (w : WeatherData),
       fetch_current_weather s city o = .ok (some w) → w.timestamp ≠ none)
  ∧ (∀ (o : RequestOutcome ForecastBody) (l : List WeatherData)
       (w : WeatherData),
       fetch_forecast s city o = .ok l → w ∈ l → w.timestamp ≠ none)
  ∧ ({ city_name := "x", temperature := 0, condition := "c", humidity := 0,
       wind_speed := 0 } : WeatherData).timestamp = none := by
  refine ⟨?_, ?_, rfl⟩
  · intro o w h
    cases o with
    | requestFailure msg => simp [fetch_current_weather] at h
    | got r =>
      simp only [fetch_current_weather] at h
      split at h
      · split at h <;> simp at h
      · simp only [Except.ok.injEq, Option.some.injEq] at h
        rw [← h]
        simp
  · intro o l w h hmem
    cases o with
    | requestFailure msg => simp [fetch_forecast] at h
    | got r =>
      simp only [fetch_forecast] at h
      split at h
      · split at h
        · simp only [Except.ok.injEq] at h
          rw [← h] at hmem
          simp at hmem
        · simp at h
      · simp only [Except.ok.injEq] at h
        rw [← h] at hmem
        rcases List.mem_map.mp hmem with ⟨item, hitem, hw⟩
        rw [← hw]
        simp


/-- Witness for C10 at a concrete successful response. -/
theorem fetched_records_have_timestamp_witness :
    fetch_current_weather (WeatherAPIService.init "key") "London"
        (.got ⟨200, ⟨"London", ⟨283.15, 80⟩, ⟨"clear sky"⟩, ⟨5⟩, 1635778800⟩⟩)
      = .ok (some ⟨"London", 10, "clear sky", 80, 5, some 1635778800⟩)
  ∧ (⟨"London", 10, "clear sky", 80, 5, some 1635778800⟩ :
      WeatherData).timestamp ≠ none :=
  ⟨by decide,
   (fetched_records_have_timestamp (WeatherAPIService.init "key") "London").1
     (.got ⟨200, ⟨"London", ⟨283.15, 80⟩, ⟨"clear sky"⟩, ⟨5⟩, 1635778800⟩⟩)
     ⟨"London", 10, "clear sky", 80, 5, some 1635778800⟩ (by decide)⟩

end WeatherApp
